import Mathlib

/-!
# Verification of the Pdf2Docx conversion orchestration core

Shallow embedding of the repository `LunaLynx12/Pdf2Docx`
(`src/pdf_to_docx/{config,utils,converter,cli}.py`).

The repository is an orchestration shell around two external collaborators
(a document-inspection service and a conversion service).  Python integers
are modelled as `Int` (page indices may be negative in a config), page
counts as `Nat`, paths as `String`, and the filesystem relevant to backup
naming as a finite list of existing path strings.  The behaviour of the
external collaborators and of the filesystem checks made by the code is
supplied through explicit environment records, and each modelled operation
returns, besides its result, the trace of observable events it performed,
so that ordering and resource-release properties can be stated.
-/

namespace PdfToDocx

/-! ## Configuration (`src/pdf_to_docx/config.py`)

`table_settings` (a dict of five float thresholds) and `log_file` are
forwarded opaquely to the external converter / logging setup and are never
read by any code path modelled here; they are omitted from the record. -/

structure ConversionConfig where
  start_page : Int := 0
  end_page : Option Int := none
  multi_processing : Bool := false
  cpu_count : Option Int := none
  preserve_layout : Bool := true
  preserve_images : Bool := true
  preserve_tables : Bool := true
  overwrite : Bool := false
  create_backup : Bool := false
  verbose : Bool := true
deriving Repr, DecidableEq

/-- `ConversionConfig.validate` (config.py lines 44-62): collects error
messages for the three field-level violations, in source order. -/
def ConversionConfig.validate (c : ConversionConfig) : List String :=
  let errors : List String := []
  let errors := if c.start_page < 0 then errors ++ ["start_page must be non-negative"] else errors
  let errors :=
    match c.end_page with
    | some e => if e < c.start_page then errors ++ ["end_page must be >= start_page"] else errors
    | none => errors
  let errors :=
    match c.cpu_count with
    | some n => if n < 1 then errors ++ ["cpu_count must be >= 1"] else errors
    | none => errors
  errors

/-- `DEFAULT_CONFIG` (config.py line 83). -/
def DEFAULT_CONFIG : ConversionConfig := {}

/-! ## Utilities (`src/pdf_to_docx/utils.py`) -/

/-- Little-endian decimal digit characters of `n`, with explicit fuel
(structurally recursive so that concrete instances evaluate).  With
`fuel ≥ n` this is the digit list of Python's `f"{n}"` rendering. -/
def natDecAux : Nat → Nat → List Char
  | 0, _ => []
  | fuel + 1, n =>
      if n = 0 then []
      else Nat.digitChar (n % 10) :: natDecAux fuel (n / 10)

/-- Decimal rendering of a natural number, as Python's f-string `f"{counter}"`
produces it (`utils.py` line 141). -/
def natDec (n : Nat) : String :=
  if n = 0 then "0" else String.mk (natDecAux n n).reverse

/-- Value of a little-endian decimal digit-character list (used only to
prove `natDec` injective). -/
def decValAux : List Char → Nat
  | [] => 0
  | c :: t => (c.toNat - 48) + 10 * decValAux t

lemma digitChar_toNat {d : Nat} (hd : d < 10) : (Nat.digitChar d).toNat - 48 = d := by
  interval_cases d <;> rfl

lemma natDecAux_val : ∀ (fuel n : Nat), n ≤ fuel → decValAux (natDecAux fuel n) = n := by
  intro fuel
  induction fuel with
  | zero => intro n hn; interval_cases n; rfl
  | succ fuel ih =>
      intro n hn
      by_cases h0 : n = 0
      · subst h0; rfl
      · have hdiv : n / 10 ≤ fuel := by omega
        simp only [natDecAux, if_neg h0, decValAux, ih _ hdiv,
          digitChar_toNat (Nat.mod_lt n (by omega))]
        omega

lemma natDec_inj_pos {m n : Nat} (hm : m ≠ 0) (hn : n ≠ 0)
    (h : natDec m = natDec n) : m = n := by
  unfold natDec at h
  rw [if_neg hm, if_neg hn] at h
  have hrev : (natDecAux m m).reverse = (natDecAux n n).reverse := by
    have := congrArg String.data h
    simpa using this
  have hlist : natDecAux m m = natDecAux n n := by
    have := congrArg List.reverse hrev
    simpa using this
  have h1 := natDecAux_val m m le_rfl
  have h2 := natDecAux_val n n le_rfl
  rw [hlist, h2] at h1
  omega

/-- Backup target names probed by `create_backup` (`utils.py` lines 136-142):
probe index `0` is `<path>.bak`, probe index `n ≥ 1` is `<path>.bak.<n>`.
(`file_path.with_suffix(f"{file_path.suffix}.bak")` replaces the path's own
suffix with itself followed by the new text, so each candidate is the
original path string with the new text appended.) -/
def backupCandidate (file_path : String) : Nat → String
  | 0 => file_path ++ ".bak"
  | n + 1 => file_path ++ ".bak." ++ natDec (n + 1)

lemma backupCandidate_injective (p : String) : Function.Injective (backupCandidate p) := by
  intro i j h
  match i, j with
  | 0, 0 => rfl
  | 0, j + 1 =>
      exfalso
      have hlen := congrArg String.length h
      simp only [backupCandidate, String.length_append] at hlen
      have h4 : ".bak".length = 4 := rfl
      have h5 : ".bak.".length = 5 := rfl
      omega
  | i + 1, 0 =>
      exfalso
      have hlen := congrArg String.length h
      simp only [backupCandidate, String.length_append] at hlen
      have h4 : ".bak".length = 4 := rfl
      have h5 : ".bak.".length = 5 := rfl
      omega
  | i + 1, j + 1 =>
      have hdata := congrArg String.data h
      simp only [backupCandidate, String.data_append] at hdata
      rw [List.append_assoc, List.append_assoc] at hdata
      have h1 := List.append_cancel_left hdata
      have h2 := List.append_cancel_left h1
      have : natDec (i + 1) = natDec (j + 1) := String.ext h2
      have := natDec_inj_pos (Nat.succ_ne_zero i) (Nat.succ_ne_zero j) this
      omega

/-- Among the first `fs.length + 1` backup candidates at least one names a
path not present in `fs` (pigeonhole via injectivity of the naming). -/
lemma exists_free_candidate (fs : List String) (p : String) :
    ∃ k, k ≤ fs.length ∧ backupCandidate p k ∉ fs := by
  by_contra hcon
  push_neg at hcon
  have hsub : (Finset.range (fs.length + 1)).image (backupCandidate p) ⊆ fs.toFinset := by
    intro x hx
    simp only [Finset.mem_image, Finset.mem_range] at hx
    obtain ⟨k, hk, rfl⟩ := hx
    exact List.mem_toFinset.2 (hcon k (by omega))
  have hcard : ((Finset.range (fs.length + 1)).image (backupCandidate p)).card =
      fs.length + 1 := by
    rw [Finset.card_image_of_injective _ (backupCandidate_injective p), Finset.card_range]
  have hle := Finset.card_le_card hsub
  have := fs.toFinset_card_le
  omega

/-- The `while backup_path.exists()` probing loop of `create_backup`
(`utils.py` lines 137-142), with explicit fuel; `create_backup` runs it with
fuel `fs.length + 1`, which always suffices by `exists_free_candidate`. -/
def probeBackupName (fs : List String) (p : String) : Nat → Nat → String
  | 0, k => backupCandidate p k
  | fuel + 1, k =>
      if backupCandidate p k ∈ fs then probeBackupName fs p fuel (k + 1)
      else backupCandidate p k

lemma probeBackupName_spec (fs : List String) (p : String) :
    ∀ (fuel k : Nat), (∃ j, j < fuel ∧ backupCandidate p (k + j) ∉ fs) →
      ∃ j, probeBackupName fs p fuel k = backupCandidate p (k + j) ∧
        backupCandidate p (k + j) ∉ fs ∧ ∀ i, i < j → backupCandidate p (k + i) ∈ fs := by
  intro fuel
  induction fuel with
  | zero =>
      rintro k ⟨j, hj, -⟩
      omega
  | succ fuel ih =>
      rintro k ⟨j, hj, hfree⟩
      by_cases hk : backupCandidate p k ∈ fs
      · have hj0 : j ≠ 0 := by
          rintro rfl
          exact hfree (by simpa using hk)
        have harg : k + 1 + (j - 1) = k + j := by omega
        obtain ⟨j', heq, hfree', hall⟩ :=
          ih (k + 1) ⟨j - 1, by omega, by rw [harg]; exact hfree⟩
        refine ⟨j' + 1, ?_, ?_, ?_⟩
        · rw [probeBackupName, if_pos hk, heq]
          congr 1
          omega
        · have : k + (j' + 1) = k + 1 + j' := by omega
          rw [this]; exact hfree'
        · intro i hi
          match i with
          | 0 => simpa using hk
          | i + 1 =>
              have : k + (i + 1) = k + 1 + i := by omega
              rw [this]
              exact hall i (by omega)
      · exact ⟨0, by rw [probeBackupName, if_neg hk, Nat.add_zero], by simpa using hk, by omega⟩

/-- `create_backup` (`utils.py` lines 123-150).  `fs` lists the paths that
exist on disk; `copyOk` says whether the `shutil.copy2` call succeeds.
Returns the function's result (`some backup_path`, or `none` when the file
does not exist or the copy fails) together with the filesystem after the
call: the probed target is created exactly when the copy succeeds. -/
def create_backup (copyOk : Bool) (fs : List String) (file_path : String) :
    Option String × List String :=
  if file_path ∈ fs then
    let backup_path := probeBackupName fs file_path (fs.length + 1) 0
    if copyOk then (some backup_path, fs ++ [backup_path]) else (none, fs)
  else (none, fs)

/-! ## Converter (`src/pdf_to_docx/converter.py`)

The converter calls two external collaborators (PyMuPDF for inspection and
pdf2docx for conversion) and the filesystem.  `ConvertEnv` fixes how those
collaborators behave during one `convert()` invocation, and the model
returns the trace of observable events so that ordering and
resource-release properties can be stated. -/

inductive Event where
  | inspect : Event
  | backup : Option String → Event
  | openSession : Event
  | convertCall : Event
  | closeSession : Event
  | callback : Int → Int → Event
deriving Repr, DecidableEq

/-- The Python exception values that `convert()` can raise. -/
inductive PyError where
  | invalidConfiguration : List String → PyError
  | openError : PyError
  | convertError : PyError
  | outputNotCreated : PyError
  | failedToConvert : PyError → PyError
deriving Repr, DecidableEq

/-- Collaborator/filesystem behaviour during one `convert()` call. -/
structure ConvertEnv where
  pages : Nat := 1
  fs : List String := []
  docx_path : String := "out.docx"
  backupCopyOk : Bool := true
  openOk : Bool := true
  convertOk : Bool := true
  outputExists : Bool := true
deriving Repr, DecidableEq

deriving instance DecidableEq for Except

structure ConvertResult where
  outcome : Except PyError String
  trace : List Event
  sessionOpen : Bool
deriving Repr, DecidableEq

/-- `PDFToDOCXConverter.convert` (`converter.py` lines 103-162).

Control flow of the source: validate the config and raise `ValueError`
before any I/O; log file info (`get_file_info`, an inspection of the PDF);
optionally back up the existing output; then in a `try` block open the
pdf2docx session, run its convert, and raise if the output file is absent;
the `except` clause wraps every exception of the `try` block into
`RuntimeError("Failed to convert PDF: ...") from e`; the `finally` clause
closes the session iff it was opened and resets it to `None`. -/
def convert (env : ConvertEnv) (cfg : ConversionConfig) : ConvertResult :=
  let config_errors := cfg.validate
  if config_errors ≠ [] then
    { outcome := .error (.invalidConfiguration config_errors), trace := [], sessionOpen := false }
  else
    let ev0 : List Event := [.inspect]
    let ev1 : List Event :=
      if env.docx_path ∈ env.fs ∧ cfg.create_backup then
        ev0 ++ [.backup (create_backup env.backupCopyOk env.fs env.docx_path).1]
      else ev0
    if env.openOk then
      if env.convertOk then
        if env.outputExists then
          { outcome := .ok env.docx_path,
            trace := ev1 ++ [.openSession, .convertCall, .closeSession], sessionOpen := false }
        else
          { outcome := .error (.failedToConvert .outputNotCreated),
            trace := ev1 ++ [.openSession, .convertCall, .closeSession], sessionOpen := false }
      else
        { outcome := .error (.failedToConvert .convertError),
          trace := ev1 ++ [.openSession, .convertCall, .closeSession], sessionOpen := false }
    else
      { outcome := .error (.failedToConvert .openError), trace := ev1, sessionOpen := false }

/-- `PDFToDOCXConverter.__exit__` (`converter.py` lines 199-204): closes the
session iff it is still open. -/
def exitEvents (sessionOpen : Bool) : List Event :=
  if sessionOpen then [.closeSession] else []

def countOpens : List Event → Nat
  | [] => 0
  | .openSession :: t => countOpens t + 1
  | _ :: t => countOpens t

def countCloses : List Event → Nat
  | [] => 0
  | .closeSession :: t => countCloses t + 1
  | _ :: t => countCloses t

lemma countOpens_append (a b : List Event) :
    countOpens (a ++ b) = countOpens a + countOpens b := by
  induction a with
  | nil => simp [countOpens]
  | cons x t ih => cases x <;> simp [countOpens, ih] <;> omega

lemma countCloses_append (a b : List Event) :
    countCloses (a ++ b) = countCloses a + countCloses b := by
  induction a with
  | nil => simp [countCloses]
  | cons x t ih => cases x <;> simp [countCloses, ih] <;> omega

lemma countOpens_ite (c : Prop) [Decidable c] (a b : List Event) :
    countOpens (if c then a else b) = if c then countOpens a else countOpens b := by
  split <;> rfl

lemma countCloses_ite (c : Prop) [Decidable c] (a b : List Event) :
    countCloses (if c then a else b) = if c then countCloses a else countCloses b := by
  split <;> rfl

/-- Python's `x or y` on an optional integer (`self.config.end_page or
total_pages`, `converter.py` line 177): both `None` and `0` are falsy. -/
def orElseTruthy (x : Option Int) (y : Int) : Int :=
  match x with
  | none => y
  | some v => if v = 0 then y else v

/-- The progress total computed by `convert_with_progress`
(`converter.py` lines 171-178). -/
def pages_to_convert (env : ConvertEnv) (cfg : ConversionConfig) : Int :=
  orElseTruthy cfg.end_page (env.pages : Int) - cfg.start_page + 1

/-- `PDFToDOCXConverter.convert_with_progress` (`converter.py` lines
164-193): inspects the input afresh, computes the progress total, invokes
the callback (if one is registered) with `(0, total)` before calling
`convert()`, with `(total, total)` after success, and with `(0, total)` on
failure, then re-raises the failure unchanged. -/
def convert_with_progress (hasCallback : Bool) (env : ConvertEnv)
    (cfg : ConversionConfig) : ConvertResult :=
  let total := pages_to_convert env cfg
  let cb0 : List Event := if hasCallback then [.callback 0 total] else []
  let r := convert env cfg
  match r.outcome with
  | .ok p =>
      { outcome := .ok p,
        trace := [.inspect] ++ cb0 ++ r.trace ++
          (if hasCallback then [.callback total total] else []),
        sessionOpen := r.sessionOpen }
  | .error e =>
      { outcome := .error e,
        trace := [.inspect] ++ cb0 ++ r.trace ++ cb0,
        sessionOpen := r.sessionOpen }

/-! ## Input/output validation and construction
(`src/pdf_to_docx/utils.py` lines 11-72, `converter.py` lines 29-72,
`cli.py` lines 122-193) -/

/-- On-disk state of the input path as observed by `validate_pdf`
(`utils.py` lines 11-41): existence, regular-file check, lower-cased
suffix, and the result of opening it with PyMuPDF (`none` when `fitz.open`
raises, otherwise the page count). -/
structure PdfFile where
  fileExists : Bool := true
  isFile : Bool := true
  suffixLower : String := ".pdf"
  openPages : Option Nat := some 1
deriving Repr, DecidableEq

/-- `validate_pdf` (`utils.py` lines 11-41), returning the
`(is_valid, error_message)` pair of the source. -/
def validate_pdf (f : PdfFile) : Bool × Option String :=
  if ¬ f.fileExists then (false, some "File not found")
  else if ¬ f.isFile then (false, some "Path is not a file")
  else if f.suffixLower ≠ ".pdf" then (false, some "File is not a PDF")
  else
    match f.openPages with
    | none => (false, some "Invalid PDF file")
    | some 0 => (false, some "PDF has no pages")
    | some _ => (true, none)

/-- On-disk state of the output path as observed by `validate_output_path`
(`utils.py` lines 44-72).  `parentIsDir` is the result of `parent.is_dir()`
after the optional `mkdir` of a missing parent. -/
structure OutFile where
  suffixLower : String := ".docx"
  fileExists : Bool := false
  parentExists : Bool := true
  mkdirOk : Bool := true
  parentIsDir : Bool := true
deriving Repr, DecidableEq

/-- `validate_output_path` (`utils.py` lines 44-72). -/
def validate_output_path (o : OutFile) (overwrite : Bool) : Bool × Option String :=
  if o.suffixLower ≠ ".docx" then (false, some "Output file must have .docx extension")
  else if o.fileExists ∧ ¬ overwrite then (false, some "Output file already exists")
  else if ¬ o.parentExists ∧ ¬ o.mkdirOk then (false, some "Cannot create output directory")
  else if ¬ o.parentIsDir then (false, some "Output path parent is not a directory")
  else (true, none)

/-- `PDFToDOCXConverter.__init__` (`converter.py` lines 29-72): validates
the input PDF and then the derived/provided output path, raising
`ValueError` (modelled as `Except.error`) on the first failure; on success
the instance exists and its session handle starts out `None` (the returned
`Bool` is the initial `sessionOpen` state). -/
def converterInit (pdf : PdfFile) (out : OutFile) (cfg : ConversionConfig) :
    Except String Bool :=
  let v := validate_pdf pdf
  if ¬ v.1 then .error ("Invalid PDF file: " ++ v.2.getD "")
  else
    let w := validate_output_path out cfg.overwrite
    if ¬ w.1 then .error ("Invalid output path: " ++ w.2.getD "")
    else .ok false

/-- Environment for one run of the CLI `main` (`cli.py` lines 122-193).
`interrupt` models a `KeyboardInterrupt` raised while the conversion body
runs; it is caught by the dedicated handler (`KeyboardInterrupt` does not
derive from `Exception`, so the generic handler cannot catch it). -/
structure CliEnv where
  pdf : PdfFile := {}
  out : OutFile := {}
  conv : ConvertEnv := {}
  interrupt : Bool := false
deriving Repr, DecidableEq

/-- `main` (`cli.py` lines 122-193): returns the process exit code paired
with the trace of converter events performed.  The input-existence check at
lines 141-143 returns 1 before any converter is constructed; a `ValueError`
from construction or a `RuntimeError` from `convert()` is caught by the
generic handler (exit 1); `KeyboardInterrupt` maps to 130; success to 0. -/
def main (env : CliEnv) (cfg : ConversionConfig) : Nat × List Event :=
  if ¬ env.pdf.fileExists then (1, [])
  else
    match converterInit env.pdf env.out cfg with
    | .error _ => (1, [])
    | .ok _ =>
        if env.interrupt then (130, [])
        else
          match (convert env.conv cfg).outcome with
          | .ok _ => (0, (convert env.conv cfg).trace)
          | .error _ => (1, (convert env.conv cfg).trace)

end PdfToDocx

namespace PdfToDocx

/-- C4 -- For every `ConversionConfig`, `validate()` reports exactly the
violations that hold: `start_page < 0`, `end_page < start_page` (when
`end_page` is present) and `cpu_count < 1` (when `cpu_count` is present),
all simultaneously holding violations being reported, and the returned
list is empty exactly when none of the three violations holds. -/
theorem validate_reports_all_violations (c : ConversionConfig) :
    ("start_page must be non-negative" ∈ c.validate ↔ c.start_page < 0) ∧
    ("end_page must be >= start_page" ∈ c.validate ↔
      ∃ e, c.end_page = some e ∧ e < c.start_page) ∧
    ("cpu_count must be >= 1" ∈ c.validate ↔
      ∃ n, c.cpu_count = some n ∧ n < 1) ∧
    (c.validate = [] ↔
      ¬ c.start_page < 0 ∧
      (∀ e, c.end_page = some e → ¬ e < c.start_page) ∧
      (∀ n, c.cpu_count = some n → ¬ n < 1)) := by
  obtain ⟨s, e, _, cc, _⟩ := c
  unfold ConversionConfig.validate
  rcases e with _ | e <;> rcases cc with _ | n <;>
    simp only [] <;> split_ifs <;>
    simp_all

/-- C1 -- On every exit path of `convert()` (normal return, the
output-missing failure detected after the session was opened, or a
collaborator exception), the underlying session is released exactly once
when it was opened during the call (i.e. when the config validated and the
open succeeded) and not at all otherwise; and the number of releases over
the whole trace, a later `__exit__` included, equals the number of
successful opens, so there is neither a leak nor a double release. -/
theorem convert_releases_session_exactly_once (env : ConvertEnv) (cfg : ConversionConfig) :
    countCloses ((convert env cfg).trace ++ exitEvents (convert env cfg).sessionOpen) =
      (if cfg.validate = [] ∧ env.openOk then 1 else 0) ∧
    countOpens ((convert env cfg).trace ++ exitEvents (convert env cfg).sessionOpen) =
      countCloses ((convert env cfg).trace ++ exitEvents (convert env cfg).sessionOpen) := by
  by_cases hv : cfg.validate = [] <;>
    cases ho : env.openOk <;> cases hc : env.convertOk <;> cases hx : env.outputExists <;>
      simp_all [convert, exitEvents, countOpens_append, countCloses_append,
        countOpens_ite, countCloses_ite, countOpens, countCloses]

/-- C6 -- Within a single `convert()` invocation, `config.validate()` runs
first and a non-empty error list aborts the call with a configuration
error before any I/O: the event trace is empty, so no file inspection, no
backup attempt, no session open and no conversion call happened. -/
theorem convert_validates_before_io (env : ConvertEnv) (cfg : ConversionConfig)
    (h : cfg.validate ≠ []) :
    convert env cfg =
      { outcome := .error (.invalidConfiguration cfg.validate),
        trace := [], sessionOpen := false } := by
  simp [convert, h]

/-- C6 witness: a config with `start_page = -1` aborts before any I/O. -/
theorem convert_validates_before_io_witness :
    ConversionConfig.validate { start_page := -1 } ≠ [] ∧
    convert {} { start_page := -1 } =
      { outcome := .error (.invalidConfiguration
          (ConversionConfig.validate { start_page := -1 })),
        trace := [], sessionOpen := false } :=
  ⟨by decide, convert_validates_before_io {} { start_page := -1 } (by decide)⟩

/-- C3 counterexample -- When the underlying conversion reports success but
the output file does not exist, the outcome of `convert()` is NOT the bare
output-not-created error: the `except` clause of the source wraps the
`RuntimeError` raised at converter.py line 146 into the generic
`RuntimeError("Failed to convert PDF: ...") from e` of line 157, so the
claim that the distinct fault escapes unwrapped is false. -/
theorem output_missing_wrapped_counterexample :
    (convert { outputExists := false } DEFAULT_CONFIG).outcome =
      Except.error (PyError.failedToConvert PyError.outputNotCreated) ∧
    (convert { outputExists := false } DEFAULT_CONFIG).outcome ≠
      Except.error PyError.outputNotCreated := by
  decide

/-- C3 amended -- When the underlying call reports success but the output
file is missing, `convert()` raises the distinct output-not-created error,
which the generic handler then wraps, so the outcome is the single
`ConversionFailed` wrapper with the output-not-created fault preserved as
its cause (not silent success); a session-open failure or a convert-call
failure is likewise wrapped into the single `ConversionFailed` error with
the original cause preserved. -/
theorem convert_failure_wrapping (env : ConvertEnv) (cfg : ConversionConfig)
    (h : cfg.validate = []) :
    (env.openOk = true → env.convertOk = true → env.outputExists = false →
      (convert env cfg).outcome = .error (.failedToConvert .outputNotCreated)) ∧
    (env.openOk = false →
      (convert env cfg).outcome = .error (.failedToConvert .openError)) ∧
    (env.openOk = true → env.convertOk = false →
      (convert env cfg).outcome = .error (.failedToConvert .convertError)) := by
  refine ⟨fun h1 h2 h3 => ?_, fun h1 => ?_, fun h1 h2 => ?_⟩
  · simp [convert, h, h1, h2, h3]
  · simp [convert, h, h1]
  · simp [convert, h, h1, h2]

/-- C3 witness: the three wrapped-failure shapes at concrete environments. -/
theorem convert_failure_wrapping_witness :
    DEFAULT_CONFIG.validate = [] ∧
    (convert { outputExists := false } DEFAULT_CONFIG).outcome =
      .error (.failedToConvert .outputNotCreated) ∧
    (convert { openOk := false } DEFAULT_CONFIG).outcome =
      .error (.failedToConvert .openError) ∧
    (convert { convertOk := false } DEFAULT_CONFIG).outcome =
      .error (.failedToConvert .convertError) :=
  ⟨by decide,
   (convert_failure_wrapping { outputExists := false } DEFAULT_CONFIG (by decide)).1 rfl rfl rfl,
   (convert_failure_wrapping { openOk := false } DEFAULT_CONFIG (by decide)).2.1 rfl,
   (convert_failure_wrapping { convertOk := false } DEFAULT_CONFIG (by decide)).2.2 rfl rfl⟩

/-- C2 counterexample -- For a 5-page document under the full-range default
config (`start_page = 0`, `end_page` absent), `convert_with_progress()`
computes `pages_to_convert = (end_page or total_pages) - start_page + 1 =
5 - 0 + 1 = 6`, so the callback receives total `6`, not `5` as claimed:
the full event trace shows `(0, 6)` before the work and `(6, 6)` after
success, and no callback ever carries total `5`. -/
theorem progress_total_five_pages_counterexample :
    (convert_with_progress true { pages := 5 } DEFAULT_CONFIG).trace =
      [Event.inspect, Event.callback 0 6, Event.inspect, Event.openSession,
       Event.convertCall, Event.closeSession, Event.callback 6 6] ∧
    pages_to_convert { pages := 5 } DEFAULT_CONFIG ≠ 5 := by
  decide

/-- C2 amended -- For every document and registered callback,
`convert_with_progress()` invokes the callback with `(0, total)` before the
conversion work, with `(total, total)` after success, and with `(0, total)`
on failure before re-raising the error unchanged, where
`total = (end_page or total_pages) - start_page + 1`; for a document with
5 pages under a full-range config this total equals 6 (not 5). -/
theorem convert_with_progress_callback_protocol (env : ConvertEnv) (cfg : ConversionConfig) :
    (∀ hasCallback : Bool,
      (convert_with_progress hasCallback env cfg).outcome = (convert env cfg).outcome) ∧
    (convert_with_progress true env cfg).trace =
      [Event.inspect, Event.callback 0 (pages_to_convert env cfg)] ++
        (convert env cfg).trace ++
        [match (convert env cfg).outcome with
         | .ok _ => Event.callback (pages_to_convert env cfg) (pages_to_convert env cfg)
         | .error _ => Event.callback 0 (pages_to_convert env cfg)] ∧
    pages_to_convert { pages := 5 } DEFAULT_CONFIG = 6 := by
  refine ⟨fun hasCallback => ?_, ?_, by decide⟩
  · simp only [convert_with_progress]
    cases hr : (convert env cfg).outcome <;> simp [hr]
  · simp only [convert_with_progress]
    cases hr : (convert env cfg).outcome <;> simp [hr]

/-- C9 -- A config with `end_page = 0` is treated by the progress-total
computation exactly as if `end_page` were absent, because `0` is falsy in
`self.config.end_page or total_pages`: the total is
`total_pages - start_page + 1`, the same value as for an absent
`end_page`, rather than `1`. -/
theorem end_page_zero_uses_full_range (env : ConvertEnv) (cfg : ConversionConfig) :
    pages_to_convert env { cfg with end_page := some 0 } =
      (env.pages : Int) - cfg.start_page + 1 ∧
    pages_to_convert env { cfg with end_page := some 0 } =
      pages_to_convert env { cfg with end_page := none } := by
  constructor <;> simp [pages_to_convert, orElseTruthy]

lemma append_ne_self (q s : String) (hs : s.length ≠ 0) : q ++ s ≠ q := by
  intro h
  have := congrArg String.length h
  rw [String.length_append] at this
  omega

lemma append_ne_append (q s t : String) (hst : s.length ≠ t.length) : q ++ s ≠ q ++ t := by
  intro h
  have := congrArg String.length h
  rw [String.length_append, String.length_append] at this
  omega

lemma backupCandidate_one (q : String) : backupCandidate q 1 = q ++ ".bak.1" := by
  show q ++ ".bak." ++ natDec 1 = q ++ ".bak.1"
  rw [String.append_assoc]
  congr 1

lemma probe_step_mem {fs : List String} {p : String} {k : Nat}
    (h : backupCandidate p k ∈ fs) (fuel : Nat) :
    probeBackupName fs p (fuel + 1) k = probeBackupName fs p fuel (k + 1) := by
  rw [probeBackupName, if_pos h]

lemma probe_step_free {fs : List String} {p : String} {k : Nat}
    (h : backupCandidate p k ∉ fs) (fuel : Nat) :
    probeBackupName fs p (fuel + 1) k = backupCandidate p k := by
  rw [probeBackupName, if_neg h]

/-- C5 -- Backup naming is deterministic and collision-free.  For every
filesystem `fs` and existing file `p ∈ fs`, `create_backup` (with a
succeeding copy) copies to the first free candidate in the deterministic
probe order `p.bak`, `p.bak.1`, `p.bak.2`, …: the chosen target did not
exist beforehand (so no existing backup is overwritten) and every earlier
candidate did exist; and calling backup twice on a file (starting from a
filesystem holding only the file) yields `<f>.bak` and then `<f>.bak.1`. -/
theorem create_backup_collision_free (fs : List String) (p : String) (h : p ∈ fs) :
    (∃ k, (create_backup true fs p).1 = some (backupCandidate p k) ∧
        backupCandidate p k ∉ fs ∧ (∀ i, i < k → backupCandidate p i ∈ fs) ∧
        (create_backup true fs p).2 = fs ++ [backupCandidate p k]) ∧
    (∀ q : String,
      create_backup true [q] q = (some (q ++ ".bak"), [q, q ++ ".bak"]) ∧
      create_backup true [q, q ++ ".bak"] q =
        (some (q ++ ".bak.1"), [q, q ++ ".bak", q ++ ".bak.1"])) := by
  constructor
  · obtain ⟨k, hk, hfree⟩ := exists_free_candidate fs p
    obtain ⟨j, heq, hfree', hall⟩ :=
      probeBackupName_spec fs p (fs.length + 1) 0 ⟨k, by omega, by simpa using hfree⟩
    simp only [Nat.zero_add] at heq hfree' hall
    refine ⟨j, ?_, hfree', fun i hi => by simpa using hall i hi, ?_⟩ <;>
      simp [create_backup, h, heq]
  · intro q
    have h0 : backupCandidate q 0 ∉ [q] := by
      simp only [backupCandidate, List.mem_singleton]
      exact append_ne_self q ".bak" (by decide)
    have hmem0 : backupCandidate q 0 ∈ [q, q ++ ".bak"] := by
      simp [backupCandidate]
    have h1 : backupCandidate q 1 ∉ [q, q ++ ".bak"] := by
      rw [backupCandidate_one]
      simp only [List.mem_cons, List.mem_singleton, List.not_mem_nil]
      push_neg
      refine ⟨append_ne_self q ".bak.1" (by decide), append_ne_append q ".bak.1" ".bak" (by decide), ?_⟩
      simp
    constructor
    · have hp1 : probeBackupName [q] q 2 0 = backupCandidate q 0 := probe_step_free h0 1
      simp [create_backup, hp1, backupCandidate]
    · have hp2 : probeBackupName [q, q ++ ".bak"] q 3 0 = backupCandidate q 1 := by
        have step1 : probeBackupName [q, q ++ ".bak"] q 3 0 =
            probeBackupName [q, q ++ ".bak"] q 2 1 := probe_step_mem hmem0 2
        rw [step1]
        exact probe_step_free h1 1
      simp [create_backup, hp2, backupCandidate_one]

/-- C5 witness: two successive backups of `"f.docx"`. -/
theorem create_backup_collision_free_witness :
    "f.docx" ∈ ["f.docx"] ∧
    create_backup true ["f.docx"] "f.docx" =
      (some ("f.docx" ++ ".bak"), ["f.docx", "f.docx" ++ ".bak"]) ∧
    create_backup true ["f.docx", "f.docx" ++ ".bak"] "f.docx" =
      (some ("f.docx" ++ ".bak.1"), ["f.docx", "f.docx" ++ ".bak", "f.docx" ++ ".bak.1"]) :=
  ⟨by decide,
   ((create_backup_collision_free ["f.docx"] "f.docx" (by decide)).2 "f.docx").1,
   ((create_backup_collision_free ["f.docx"] "f.docx" (by decide)).2 "f.docx").2⟩

/-- C7 -- Backup is best-effort: a failed backup copy makes `create_backup`
return `none` and leave the filesystem unchanged; the outcome of
`convert()` never depends on whether the backup copy succeeded; and with
every other collaborator succeeding, `convert()` still completes
successfully when the backup copy fails. -/
theorem backup_best_effort (env : ConvertEnv) (cfg : ConversionConfig) :
    (∀ (fs : List String) (p : String), create_backup false fs p = (none, fs)) ∧
    (∀ b : Bool,
      (convert { env with backupCopyOk := b } cfg).outcome = (convert env cfg).outcome) ∧
    (cfg.validate = [] → env.openOk = true → env.convertOk = true →
      env.outputExists = true →
      (convert { env with backupCopyOk := false } cfg).outcome = .ok env.docx_path) := by
  refine ⟨?_, ?_, ?_⟩
  · intro fs p
    unfold create_backup
    split_ifs <;> simp_all
  · intro b
    by_cases hv : cfg.validate = [] <;>
      cases ho : env.openOk <;> cases hc : env.convertOk <;> cases hx : env.outputExists <;>
        simp_all [convert]
  · intro hv ho hc hx
    simp [convert, hv, ho, hc, hx]

/-- C7 witness: a failed copy returns no backup, and a conversion with a
failing backup copy (backup enabled, output present to back up) still
succeeds. -/
theorem backup_best_effort_witness :
    create_backup false ["doc.docx"] "doc.docx" = (none, ["doc.docx"]) ∧
    (convert { fs := ["out.docx"], backupCopyOk := false } { create_backup := true }).outcome =
      .ok "out.docx" :=
  ⟨(backup_best_effort {} {}).1 ["doc.docx"] "doc.docx",
   (backup_best_effort { fs := ["out.docx"] } { create_backup := true }).2.2
     (by decide) rfl rfl rfl⟩

/-- C10 -- Input and output validation happen eagerly at construction:
`validate_pdf` fails exactly on a missing path, a non-file, a wrong
extension, an unopenable document or zero pages; `validate_output_path`
fails exactly on a wrong extension, an existing output without overwrite,
or an unusable parent directory; `__init__` succeeds exactly when both
pass, and otherwise raises so that no converter instance exists and
`convert()` is unreachable for such paths. -/
lemma converterInit_ok_iff (pdf : PdfFile) (out : OutFile) (cfg : ConversionConfig) :
    (∃ b, converterInit pdf out cfg = .ok b) ↔
      (validate_pdf pdf).1 = true ∧ (validate_output_path out cfg.overwrite).1 = true := by
  unfold converterInit
  cases hv : (validate_pdf pdf).1 <;>
    cases hw : (validate_output_path out cfg.overwrite).1 <;> simp [hv, hw]

lemma converterInit_error_iff (pdf : PdfFile) (out : OutFile) (cfg : ConversionConfig) :
    (∃ e, converterInit pdf out cfg = .error e) ↔
      (validate_pdf pdf).1 = false ∨ (validate_output_path out cfg.overwrite).1 = false := by
  unfold converterInit
  cases hv : (validate_pdf pdf).1 <;>
    cases hw : (validate_output_path out cfg.overwrite).1 <;> simp [hv, hw]

theorem init_validates_eagerly (pdf : PdfFile) (out : OutFile) (cfg : ConversionConfig) :
    ((validate_pdf pdf).1 = false ↔
      pdf.fileExists = false ∨ pdf.isFile = false ∨ pdf.suffixLower ≠ ".pdf" ∨
        pdf.openPages = none ∨ pdf.openPages = some 0) ∧
    ((validate_output_path out cfg.overwrite).1 = false ↔
      out.suffixLower ≠ ".docx" ∨ (out.fileExists = true ∧ cfg.overwrite = false) ∨
        (out.parentExists = false ∧ out.mkdirOk = false) ∨ out.parentIsDir = false) ∧
    ((∃ b, converterInit pdf out cfg = .ok b) ↔
      (validate_pdf pdf).1 = true ∧ (validate_output_path out cfg.overwrite).1 = true) ∧
    ((∃ e, converterInit pdf out cfg = .error e) ↔
      (validate_pdf pdf).1 = false ∨ (validate_output_path out cfg.overwrite).1 = false) := by
  refine ⟨?_, ?_, converterInit_ok_iff pdf out cfg, converterInit_error_iff pdf out cfg⟩
  · obtain ⟨fe, isf, sfx, op⟩ := pdf
    cases fe <;> cases isf <;> rcases op with _ | (_ | n) <;>
      by_cases hs : sfx = ".pdf" <;> simp_all [validate_pdf]
  · obtain ⟨osfx, ofe, ope, omk, opd⟩ := out
    cases ofe <;> cases ope <;> cases omk <;> cases opd <;>
      cases hov : cfg.overwrite <;> by_cases hs : osfx = ".docx" <;>
        simp_all [validate_output_path]

/-- C8 -- The CLI `main` maps outcomes to exit codes: the code is always
0, 1 or 130; a missing input file yields exit code 1 with an empty event
trace (so no backup is attempted and no conversion call that could create
an output occurs); 0 is returned exactly on a completed conversion, and
130 exactly on a user interrupt reaching the dedicated handler. -/
theorem main_exit_codes (env : CliEnv) (cfg : ConversionConfig) :
    ((main env cfg).1 = 0 ∨ (main env cfg).1 = 1 ∨ (main env cfg).1 = 130) ∧
    (env.pdf.fileExists = false → main env cfg = (1, [])) ∧
    ((main env cfg).1 = 0 ↔ env.pdf.fileExists = true ∧
      (∃ b, converterInit env.pdf env.out cfg = .ok b) ∧ env.interrupt = false ∧
      ∃ p, (convert env.conv cfg).outcome = .ok p) ∧
    ((main env cfg).1 = 130 ↔ env.pdf.fileExists = true ∧
      (∃ b, converterInit env.pdf env.out cfg = .ok b) ∧ env.interrupt = true) := by
  by_cases hpdf : env.pdf.fileExists = true
  · cases hinit : converterInit env.pdf env.out cfg with
    | error e =>
        cases hint : env.interrupt <;> simp_all [main]
    | ok b =>
        cases hint : env.interrupt
        · cases hout : (convert env.conv cfg).outcome <;> simp_all [main]
        · simp_all [main]
  · simp_all [main]

/-- C8 witness: a missing input exits with code 1 and an empty trace. -/
theorem main_exit_codes_witness :
    main { pdf := { fileExists := false } } DEFAULT_CONFIG = (1, []) :=
  (main_exit_codes { pdf := { fileExists := false } } DEFAULT_CONFIG).2.1 rfl

end PdfToDocx
